import Mathlib

/-
Shallow embedding of src/behavioural-patterns/state-pattern/index.ts.

The file contains two implementations of a vending-machine controller:
  * a naive switch-based `VendingMachine` (lines 29-107), and
  * a State-pattern `VendingMachine` (lines 117-234) whose four state
    classes (`IdleState`, `ItemSelectedState`, `HasMoneyState`,
    `DispensingState`) are stateless, so the active state is faithfully
    represented by a tag.

TypeScript `number` payment amounts are only ever stored and echoed, never
subjected to arithmetic, so they are embedded as `Rat`.  Each handler
branch performs at most one `console.log`; the log line is modelled by a
message datatype whose constructors carry exactly the dynamic data
interpolated into the corresponding source string.  The `setTimeout`
completion callback is modelled by a count of scheduled-but-not-yet-fired
callbacks (`pending`) plus an explicit `fire` event delivering one of
them; `reset()` in the source stores no timer handle and cancels nothing,
so it leaves `pending` untouched.

The State-pattern context declares `private selectedItem: string` and
`private insertedAmount: number` without initialisers and its constructor
assigns only `currentState`, so at runtime both fields hold `undefined`
until first assigned; they are embedded as `Option` values with `none`
for `undefined`.  The naive machine initialises its fields to `""` and
`0.0`, so its fields are plain values.
-/

namespace StatePattern

/-- The four operating modes; named after the source's state classes
(equivalently the naive machine's `State` enum members `IDLE`,
`ITEM_SELECTED`, `HAS_MONEY`, `DISPENSING`). -/
inductive MState where
  | IdleState
  | ItemSelectedState
  | HasMoneyState
  | DispensingState
deriving DecidableEq

/-- External stimuli of the State-pattern machine: the three public
methods `selectItem` / `insertCoin` / `dispenseItem`, the public
`reset()` method, and `fire`, the delivery of a scheduled `setTimeout`
completion callback (the spec's `DispenseComplete`). -/
inductive Event where
  | selectItem (itemCode : String)
  | insertCoin (amount : Rat)
  | dispenseItem
  | reset
  | fire
deriving DecidableEq

/-- One `console.log` line of the State-pattern implementation.  Each
constructor corresponds to one source log statement and carries the
dynamic values interpolated into it:
  * `itemSelected c` — "Item selected: " + c (IdleState.selectItem)
  * `pleaseSelectAnItem` — "Please select an item before inserting coins."
  * `noItemToDispense` — "No item selected. Nothing to dispense."
  * `itemAlreadySelected it` — "Item already selected: " + getSelectedItem()
  * `insertedFor a it` — "Inserted $" + a + " for item: " + getSelectedItem()
  * `insertCoinBeforeDispensing` — "Insert coin before dispensing."
  * `cannotChangeItem` — "Cannot change item after inserting money."
  * `moneyAlreadyInserted` — "Money already inserted."
  * `dispensingItem it` — "Dispensing item: " + getSelectedItem()
  * `pleaseWaitDispensing` — "Please wait, dispensing in progress."
  * `alreadyDispensing` — "Already dispensing. Please wait."
  * `itemDispensedSuccessfully` — "Item dispensed successfully." (callback) -/
inductive Msg where
  | itemSelected (itemCode : String)
  | pleaseSelectAnItem
  | noItemToDispense
  | itemAlreadySelected (item : Option String)
  | insertedFor (amount : Rat) (item : Option String)
  | insertCoinBeforeDispensing
  | cannotChangeItem
  | moneyAlreadyInserted
  | dispensingItem (item : Option String)
  | pleaseWaitDispensing
  | alreadyDispensing
  | itemDispensedSuccessfully
deriving DecidableEq

/-- The State-pattern context (source lines 192-234) together with the
scheduler state: `pending` counts `setTimeout` completion callbacks that
have been scheduled but have neither fired nor been cancelled (the source
offers no cancellation path).  `selectedItem` / `insertedAmount` are
`Option`s because the constructor leaves them `undefined`. -/
structure VendingMachine where
  currentState : MState
  selectedItem : Option String
  insertedAmount : Option Rat
  pending : Nat
deriving DecidableEq

/-- A freshly constructed State-pattern `VendingMachine`: the constructor
assigns only `currentState = new IdleState()`, leaving both transaction
fields `undefined`; nothing is scheduled yet. -/
def VendingMachine.init : VendingMachine :=
  { currentState := .IdleState
    selectedItem := none
    insertedAmount := none
    pending := 0 }

/-- Body of `VendingMachine.reset()` (source lines 229-233): clears both
transaction fields and returns to `IdleState`.  The source stores no
timer handle, so `pending` is untouched — nothing is cancelled. -/
def VendingMachine.resetMachine (m : VendingMachine) : VendingMachine :=
  { m with
      selectedItem := some ""
      insertedAmount := some 0
      currentState := .IdleState }

/-- One event processed by the State-pattern machine: the context
delegates to the current state's handler (dynamic dispatch on the state
tag).  Returns the successor machine and the log line emitted, if any
(`reset()` logs nothing; a `fire` with nothing pending cannot occur in
the source and is a no-op here).  A `fire` consumes one pending callback,
logs, and runs `context.reset()` (source lines 170-173). -/
def step (m : VendingMachine) : Event → VendingMachine × Option Msg
  | .selectItem itemCode =>
    match m.currentState with
    | .IdleState =>
        ({ m with selectedItem := some itemCode
                  currentState := .ItemSelectedState },
         some (.itemSelected itemCode))
    | .ItemSelectedState => (m, some (.itemAlreadySelected m.selectedItem))
    | .HasMoneyState => (m, some .cannotChangeItem)
    | .DispensingState => (m, some .pleaseWaitDispensing)
  | .insertCoin amount =>
    match m.currentState with
    | .IdleState => (m, some .pleaseSelectAnItem)
    | .ItemSelectedState =>
        ({ m with insertedAmount := some amount
                  currentState := .HasMoneyState },
         some (.insertedFor amount m.selectedItem))
    | .HasMoneyState => (m, some .moneyAlreadyInserted)
    | .DispensingState => (m, some .pleaseWaitDispensing)
  | .dispenseItem =>
    match m.currentState with
    | .IdleState => (m, some .noItemToDispense)
    | .ItemSelectedState => (m, some .insertCoinBeforeDispensing)
    | .HasMoneyState =>
        ({ m with currentState := .DispensingState
                  pending := m.pending + 1 },
         some (.dispensingItem m.selectedItem))
    | .DispensingState => (m, some .alreadyDispensing)
  | .reset => (m.resetMachine, none)
  | .fire =>
    if 0 < m.pending then
      ({ m.resetMachine with pending := m.pending - 1 },
       some .itemDispensedSuccessfully)
    else (m, none)

/-- Run a list of events through the State-pattern machine, ignoring the
log output. -/
def run (m : VendingMachine) : List Event → VendingMachine
  | [] => m
  | e :: es => run (step m e).1 es

/-- The transition table of the controller, read off the source: a
(state, event) pair has a rule exactly when the source branch mutates the
context (or, for `reset` / the completion callback, unconditionally
resets it).  All other branches only log. -/
def hasRule : MState → Event → Bool
  | .IdleState, .selectItem _ => true
  | .ItemSelectedState, .insertCoin _ => true
  | .HasMoneyState, .dispenseItem => true
  | .DispensingState, .fire => true
  | _, .reset => true
  | _, _ => false

/-- The (state, event) pairs at which the source's handler rejects the
stimulus: the branch performs a single `console.log` and nothing else.
These are exactly the user-facing events (`selectItem` / `insertCoin` /
`dispenseItem`) without a rule in the transition table. -/
def rejects : MState → Event → Bool
  | .IdleState, .insertCoin _ => true
  | .IdleState, .dispenseItem => true
  | .ItemSelectedState, .selectItem _ => true
  | .ItemSelectedState, .dispenseItem => true
  | .HasMoneyState, .selectItem _ => true
  | .HasMoneyState, .insertCoin _ => true
  | .DispensingState, .selectItem _ => true
  | .DispensingState, .insertCoin _ => true
  | .DispensingState, .dispenseItem => true
  | _, _ => false

/-- One `console.log` line of the naive switch-based implementation
(source lines 29-107).  `IDLE.selectItem` logs nothing. -/
inductive NaiveMsg where
  | itemAlreadySelected
  | paymentAlreadyReceived
  | currentlyDispensing
  | noItemSelected
  | insertedForItem (amount : Rat)
  | moneyAlreadyInserted
  | pleaseInsertCoinFirst
  | dispensingItem (item : String)
  | alreadyDispensing
  | itemDispensedSuccessfully
deriving DecidableEq

/-- The naive switch-based `VendingMachine` (source lines 29-107): its
field declarations carry initialisers, so `selectedItem` and
`insertedAmount` are plain values.  `pending` counts scheduled
`setTimeout` callbacks exactly as for the State-pattern machine. -/
structure NaiveVendingMachine where
  currentState : MState
  selectedItem : String
  insertedAmount : Rat
  pending : Nat
deriving DecidableEq

/-- A freshly constructed naive machine: field initialisers give
`IDLE`, `""`, `0.0`. -/
def NaiveVendingMachine.init : NaiveVendingMachine :=
  { currentState := .IdleState
    selectedItem := ""
    insertedAmount := 0
    pending := 0 }

/-- Body of the naive machine's private `resetMachine()` (source lines
102-106). -/
def NaiveVendingMachine.resetMachine (m : NaiveVendingMachine) :
    NaiveVendingMachine :=
  { m with
      selectedItem := ""
      insertedAmount := 0
      currentState := .IdleState }

/-- The operations both implementations expose, for comparing them: the
three public methods plus `complete`, the scheduled `setTimeout` callback
running.  (The naive machine has no public `reset`; its `resetMachine` is
private and reachable only through the callback.) -/
inductive Op where
  | selectItem (itemCode : String)
  | insertCoin (amount : Rat)
  | dispenseItem
  | complete
deriving DecidableEq

/-- The event of the State-pattern machine corresponding to each shared
operation. -/
def Op.toEvent : Op → Event
  | .selectItem c => .selectItem c
  | .insertCoin a => .insertCoin a
  | .dispenseItem => .dispenseItem
  | .complete => .fire

/-- One operation processed by the naive switch-based machine (source
lines 41-100): a `switch` on `currentState` in each method.  The
callback (`complete`) logs and calls the private `resetMachine()`. -/
def naiveStep (m : NaiveVendingMachine) : Op → NaiveVendingMachine × Option NaiveMsg
  | .selectItem itemCode =>
    match m.currentState with
    | .IdleState =>
        ({ m with selectedItem := itemCode
                  currentState := .ItemSelectedState }, none)
    | .ItemSelectedState => (m, some .itemAlreadySelected)
    | .HasMoneyState => (m, some .paymentAlreadyReceived)
    | .DispensingState => (m, some .currentlyDispensing)
  | .insertCoin amount =>
    match m.currentState with
    | .IdleState => (m, some .noItemSelected)
    | .ItemSelectedState =>
        ({ m with insertedAmount := amount
                  currentState := .HasMoneyState },
         some (.insertedForItem amount))
    | .HasMoneyState => (m, some .moneyAlreadyInserted)
    | .DispensingState => (m, some .currentlyDispensing)
  | .dispenseItem =>
    match m.currentState with
    | .IdleState => (m, some .noItemSelected)
    | .ItemSelectedState => (m, some .pleaseInsertCoinFirst)
    | .HasMoneyState =>
        ({ m with currentState := .DispensingState
                  pending := m.pending + 1 },
         some (.dispensingItem m.selectedItem))
    | .DispensingState => (m, some .alreadyDispensing)
  | .complete =>
    if 0 < m.pending then
      ({ m.resetMachine with pending := m.pending - 1 },
       some .itemDispensedSuccessfully)
    else (m, none)

/-- Run a list of operations through the naive machine, ignoring logs. -/
def naiveRun (m : NaiveVendingMachine) : List Op → NaiveVendingMachine
  | [] => m
  | o :: os => naiveRun (naiveStep m o).1 os

/-- C3 (amended): reset() from any of the four states moves the machine
to Idle and empties the Transaction (selected item set to the empty
string, inserted amount set to 0, no log emitted), but it does not cancel
a pending scheduled completion callback: the pending count is unchanged,
so a previously scheduled callback can still fire. -/
theorem reset_clears_transaction_but_cancels_nothing (m : VendingMachine) :
    step m .reset =
      ({ currentState := .IdleState, selectedItem := some "",
         insertedAmount := some 0, pending := m.pending }, none) := by
  cases m
  rfl

/-- C3 counterexample: after Idle --selectItem--> --insertCoin-->
--dispenseItem--> the machine is Dispensing with one scheduled
completion; reset() leaves that completion pending (count still 1), and
it can still fire afterwards (the fire logs and resets), contradicting
the claim that reset cancels any pending completion so that it can no
longer fire. -/
theorem reset_does_not_cancel_counterexample :
    (run VendingMachine.init
        [.selectItem "A1", .insertCoin 1.5, .dispenseItem]).currentState
      = .DispensingState ∧
    (step (run VendingMachine.init
        [.selectItem "A1", .insertCoin 1.5, .dispenseItem]) .reset).1.pending
      = 1 ∧
    (step (step (run VendingMachine.init
        [.selectItem "A1", .insertCoin 1.5, .dispenseItem]) .reset).1 .fire).2
      = some .itemDispensedSuccessfully := by
  decide

/-- C4: starting from a fresh machine, insertCoin(1.0) is rejected with
a diagnostic and leaves the machine unchanged in Idle; selectItem("B2")
moves to ItemSelected with item "B2"; insertCoin(2.0) moves to HasMoney
with item "B2" and amount 2.0; dispenseItem moves to Dispensing with item
"B2" and exactly one scheduled completion; the completion firing returns
the machine to Idle with an empty transaction and nothing pending. -/
theorem example_scenario :
    step VendingMachine.init (.insertCoin 1)
      = (VendingMachine.init, some .pleaseSelectAnItem) ∧
    run VendingMachine.init [.insertCoin 1, .selectItem "B2"]
      = ⟨.ItemSelectedState, some "B2", none, 0⟩ ∧
    run VendingMachine.init [.insertCoin 1, .selectItem "B2", .insertCoin 2]
      = ⟨.HasMoneyState, some "B2", some 2, 0⟩ ∧
    run VendingMachine.init
        [.insertCoin 1, .selectItem "B2", .insertCoin 2, .dispenseItem]
      = ⟨.DispensingState, some "B2", some 2, 1⟩ ∧
    run VendingMachine.init
        [.insertCoin 1, .selectItem "B2", .insertCoin 2, .dispenseItem, .fire]
      = ⟨.IdleState, some "", some 0, 0⟩ := by
  decide

/-- C5 counterexample: with an item selected, insertCoin(-1) — a
non-positive amount — is not rejected: the source performs no payload
validation, so the machine moves to HasMoney and records -1 as the
inserted amount, contradicting the claim that the state remains
ItemSelected and no amount is recorded. -/
theorem nonpositive_amount_accepted_counterexample :
    (step (step VendingMachine.init (.selectItem "A1")).1
        (.insertCoin (-1))).1.currentState = .HasMoneyState ∧
    (step (step VendingMachine.init (.selectItem "A1")).1
        (.insertCoin (-1))).1.insertedAmount = some (-1) := by
  decide

/-- C5 (amended): the source performs no payload validation on payment
amounts: for every amount a — non-positive amounts included — processing
insertCoin(a) while in ItemSelected is accepted, records a as the
inserted amount, keeps the selected item, and moves the machine to
HasMoney. -/
theorem itemSelected_insertCoin_accepts_any_amount
    (m : VendingMachine) (a : Rat)
    (h : m.currentState = .ItemSelectedState) :
    step m (.insertCoin a) =
      ({ currentState := .HasMoneyState, selectedItem := m.selectedItem,
         insertedAmount := some a, pending := m.pending },
       some (.insertedFor a m.selectedItem)) := by
  rcases m with ⟨s, sel, amt, p⟩
  obtain rfl : s = .ItemSelectedState := h
  rfl

/-- C5 witness: the amended theorem applied at a concrete machine in
ItemSelected and the concrete non-positive amount -1. -/
theorem itemSelected_insertCoin_accepts_any_amount_witness :
    step ⟨.ItemSelectedState, some "A1", none, 0⟩ (.insertCoin (-1)) =
      (⟨.HasMoneyState, some "A1", some (-1), 0⟩,
       some (.insertedFor (-1) (some "A1"))) :=
  itemSelected_insertCoin_accepts_any_amount
    ⟨.ItemSelectedState, some "A1", none, 0⟩ (-1) rfl

/-- C8: for every amount a, insertCoin(a) while in HasMoney is rejected
with the "Money already inserted." diagnostic and changes nothing: the
machine (state, selected item, inserted amount, pending completions) is
returned exactly as it was, so the previous amount is neither accumulated
with a nor replaced by a. -/
theorem hasMoney_insertCoin_rejected (m : VendingMachine) (a : Rat)
    (h : m.currentState = .HasMoneyState) :
    step m (.insertCoin a) = (m, some .moneyAlreadyInserted) := by
  rcases m with ⟨s, sel, amt, p⟩
  obtain rfl : s = .HasMoneyState := h
  rfl

/-- C8 witness: the theorem applied at a concrete HasMoney machine
holding amount 1.5, with a second insertion of 2. -/
theorem hasMoney_insertCoin_rejected_witness :
    step ⟨.HasMoneyState, some "A1", some 1.5, 0⟩ (.insertCoin 2) =
      (⟨.HasMoneyState, some "A1", some 1.5, 0⟩, some .moneyAlreadyInserted) :=
  hasMoney_insertCoin_rejected ⟨.HasMoneyState, some "A1", some 1.5, 0⟩ 2 rfl

/-- C10: a scheduled completion callback resets the machine
unconditionally when it fires, whatever the state at that moment; in
particular, after dispense, reset during Dispensing, and a fresh
selectItem("B2")/insertCoin(2.0) transaction, the stale callback is still
pending and firing it returns the machine to Idle, erasing the new
transaction's selected item and inserted amount. -/
theorem stale_callback_resets_machine :
    (∀ m : VendingMachine, 0 < m.pending →
      step m .fire =
        ({ currentState := .IdleState, selectedItem := some "",
           insertedAmount := some 0, pending := m.pending - 1 },
         some .itemDispensedSuccessfully)) ∧
    run VendingMachine.init
        [.selectItem "A1", .insertCoin 1.5, .dispenseItem, .reset,
         .selectItem "B2", .insertCoin 2]
      = ⟨.HasMoneyState, some "B2", some 2, 1⟩ ∧
    step (run VendingMachine.init
        [.selectItem "A1", .insertCoin 1.5, .dispenseItem, .reset,
         .selectItem "B2", .insertCoin 2]) .fire
      = (⟨.IdleState, some "", some 0, 0⟩, some .itemDispensedSuccessfully) := by
  refine ⟨?_, by decide, by decide⟩
  intro m h
  rcases m with ⟨s, sel, amt, p⟩
  simp only [step, VendingMachine.resetMachine]
  rw [if_pos h]

/-- C10 witness: the universal part of the theorem applied to a concrete
machine in ItemSelected with two stale pending completions. -/
theorem stale_callback_resets_machine_witness :
    step ⟨.ItemSelectedState, some "X", none, 2⟩ .fire =
      (⟨.IdleState, some "", some 0, 1⟩, some .itemDispensedSuccessfully) :=
  stale_callback_resets_machine.1 ⟨.ItemSelectedState, some "X", none, 2⟩
    (by decide)

/-- C1 counterexample: a completion event delivered outside Dispensing
is not rejected.  After selectItem("A1"), insertCoin(1.5), dispenseItem,
reset, selectItem("B2"), the machine is in ItemSelected with a stale
pending completion; (ItemSelected, completion) has no rule in the
transition table, yet processing the completion changes the current
state (to Idle), contradicting the claim that every ruleless event
leaves the machine unchanged with a diagnostic only. -/
theorem ruleless_event_changes_state_counterexample :
    (run VendingMachine.init
        [.selectItem "A1", .insertCoin 1.5, .dispenseItem, .reset,
         .selectItem "B2"]).currentState = .ItemSelectedState ∧
    hasRule .ItemSelectedState .fire = false ∧
    (step (run VendingMachine.init
        [.selectItem "A1", .insertCoin 1.5, .dispenseItem, .reset,
         .selectItem "B2"]) .fire).1.currentState ≠ .ItemSelectedState := by
  decide

/-- C1 (amended): for every state S and every user-facing event E
(selectItem, insertCoin, dispenseItem) with no rule in the transition
table for S — in particular all three user events while Dispensing —
processing E leaves the machine (state, selected item, inserted amount,
pending completions) unchanged and emits a diagnostic log line; a
completion delivery (DispenseComplete) outside Dispensing is not
rejected but instead resets the machine. -/
theorem ruleless_user_event_rejected (m : VendingMachine) (e : Event)
    (hf : e ≠ .fire) (hr : hasRule m.currentState e = false) :
    (step m e).1 = m ∧ (step m e).2 ≠ none := by
  rcases m with ⟨s, sel, amt, p⟩
  cases e <;> cases s <;> simp_all [hasRule, step]

/-- C1 witness: the amended theorem applied at a Dispensing machine and
the concrete ruleless event insertCoin(1). -/
theorem ruleless_user_event_rejected_witness :
    (step ⟨.DispensingState, some "A1", some 1.5, 1⟩ (.insertCoin 1)).1
      = ⟨.DispensingState, some "A1", some 1.5, 1⟩ ∧
    (step ⟨.DispensingState, some "A1", some 1.5, 1⟩ (.insertCoin 1)).2
      ≠ none :=
  ruleless_user_event_rejected ⟨.DispensingState, some "A1", some 1.5, 1⟩
    (.insertCoin 1) (by decide) (by decide)

/-- C2 counterexample: the single-flight guarantee fails.  After
selectItem("A1"), insertCoin(1.5), dispenseItem, reset (which cancels
nothing), selectItem("B2"), insertCoin(2), dispenseItem, two scheduled
completion callbacks are outstanding at once — the second was scheduled
while the first had neither fired nor been cancelled — contradicting the
claim that no event sequence can make this happen. -/
theorem two_outstanding_callbacks_counterexample :
    (run VendingMachine.init
        [.selectItem "A1", .insertCoin 1.5, .dispenseItem, .reset,
         .selectItem "B2", .insertCoin 2, .dispenseItem]).pending = 2 := by
  decide

/-- C2 (amended): a completion callback is scheduled exactly at the
HasMoney --dispenseItem--> Dispensing transition — no other step
increases the number of outstanding callbacks — but since reset does not
cancel, a Reset during Dispensing followed by a new transaction reaching
Dispensing before the first callback fires leaves two callbacks
outstanding at once. -/
theorem schedule_only_on_dispense (m : VendingMachine) (e : Event) :
    (step m e).1.pending = m.pending + 1 ↔
      m.currentState = .HasMoneyState ∧ e = .dispenseItem := by
  rcases m with ⟨s, sel, amt, p⟩
  cases e <;> cases s <;>
    simp [step, VendingMachine.resetMachine] <;>
    first | omega | (split <;> simp)

/-- C2 witness: the amended theorem applied at a concrete HasMoney
machine, concluding that dispenseItem schedules one completion. -/
theorem schedule_only_on_dispense_witness :
    (step ⟨.HasMoneyState, some "A1", some 1.5, 0⟩ .dispenseItem).1.pending
      = 0 + 1 :=
  (schedule_only_on_dispense ⟨.HasMoneyState, some "A1", some 1.5, 0⟩
    .dispenseItem).mpr ⟨rfl, rfl⟩

/-- C7: for every machine and every event the current state rejects
(the source branch only logs), processing the event twice in succession
is idempotent: the first attempt leaves the machine unchanged and emits
a diagnostic, the second attempt emits the identical diagnostic, and the
machine after the second attempt equals the machine before the first. -/
theorem rejected_event_idempotent (m : VendingMachine) (e : Event)
    (h : rejects m.currentState e = true) :
    (step m e).1 = m ∧ (step m e).2 ≠ none ∧
    (step (step m e).1 e).2 = (step m e).2 ∧
    (step (step m e).1 e).1 = m := by
  rcases m with ⟨s, sel, amt, p⟩
  cases e <;> cases s <;> simp_all [rejects, step]

/-- C7 witness: the theorem applied at a fresh machine with the rejected
event dispenseItem. -/
theorem rejected_event_idempotent_witness :
    (step VendingMachine.init .dispenseItem).1 = VendingMachine.init ∧
    (step VendingMachine.init .dispenseItem).2 ≠ none ∧
    (step (step VendingMachine.init .dispenseItem).1 .dispenseItem).2
      = (step VendingMachine.init .dispenseItem).2 ∧
    (step (step VendingMachine.init .dispenseItem).1 .dispenseItem).1
      = VendingMachine.init :=
  rejected_event_idempotent VendingMachine.init .dispenseItem (by decide)

/-- In Idle the transaction fields are either both still unset (the
freshly constructed machine, whose constructor assigns neither field) or
both cleared by a reset.  This is the inductive invariant behind C6. -/
def idleTransactionInv (m : VendingMachine) : Prop :=
  m.currentState = .IdleState →
    (m.selectedItem = none ∧ m.insertedAmount = none) ∨
    (m.selectedItem = some "" ∧ m.insertedAmount = some 0)

/-- Every single step preserves the Idle-transaction invariant. -/
theorem step_preserves_idleTransactionInv (m : VendingMachine) (e : Event)
    (h : idleTransactionInv m) : idleTransactionInv (step m e).1 := by
  rcases m with ⟨s, sel, amt, p⟩
  cases e <;> cases s <;>
    simp_all [idleTransactionInv, step, VendingMachine.resetMachine] <;>
    (try split) <;> simp_all

/-- Every event sequence preserves the Idle-transaction invariant. -/
theorem run_preserves_idleTransactionInv :
    ∀ (es : List Event) (m : VendingMachine),
      idleTransactionInv m → idleTransactionInv (run m es)
  | [], _, h => h
  | e :: es, m, h =>
      run_preserves_idleTransactionInv es _
        (step_preserves_idleTransactionInv m e h)

/-- C6 counterexample: the freshly constructed machine is in Idle, yet
its selected item is not the empty string and its inserted amount is not
0.0 — both fields are still `undefined`, because the constructor assigns
only the current state. -/
theorem fresh_idle_transaction_counterexample :
    VendingMachine.init.currentState = .IdleState ∧
    VendingMachine.init.selectedItem ≠ some "" ∧
    VendingMachine.init.insertedAmount ≠ some 0 := by
  decide

/-- C6 (amended): in every reachable machine whose current state is
Idle, the transaction is empty up to initialisation: either both fields
are still unset (`undefined`, possible only before any successful
selection) or the selected item is the empty string and the inserted
amount is 0. -/
theorem idle_transaction_empty_or_unset (es : List Event)
    (h : (run VendingMachine.init es).currentState = .IdleState) :
    ((run VendingMachine.init es).selectedItem = none ∧
     (run VendingMachine.init es).insertedAmount = none) ∨
    ((run VendingMachine.init es).selectedItem = some "" ∧
     (run VendingMachine.init es).insertedAmount = some 0) :=
  run_preserves_idleTransactionInv es VendingMachine.init
    (fun _ => Or.inl ⟨rfl, rfl⟩) h

/-- C6 witness: the amended theorem applied to the reachable machine
obtained by a single reset from the fresh machine. -/
theorem idle_transaction_empty_or_unset_witness :
    ((run VendingMachine.init [.reset]).selectedItem = none ∧
     (run VendingMachine.init [.reset]).insertedAmount = none) ∨
    ((run VendingMachine.init [.reset]).selectedItem = some "" ∧
     (run VendingMachine.init [.reset]).insertedAmount = some 0) :=
  idle_transaction_empty_or_unset [.reset] (by decide)

/-- The correspondence between the naive switch-based machine and the
State-pattern machine: same state tag, same pending count, and the same
transaction values once the State-pattern machine's possibly-unset
(`undefined`) fields are read back with the naive machine's initial
values `""` and `0` as defaults. -/
def agrees (n : NaiveVendingMachine) (p : VendingMachine) : Prop :=
  n.currentState = p.currentState ∧
  n.selectedItem = p.selectedItem.getD "" ∧
  n.insertedAmount = p.insertedAmount.getD 0 ∧
  n.pending = p.pending

/-- Each shared operation preserves the correspondence between the two
implementations. -/
theorem naiveStep_agrees (n : NaiveVendingMachine) (p : VendingMachine)
    (o : Op) (h : agrees n p) :
    agrees (naiveStep n o).1 (step p o.toEvent).1 := by
  obtain ⟨h1, h2, h3, h4⟩ := h
  rcases n with ⟨ns, nsel, namt, np⟩
  rcases p with ⟨ps, psel, pamt, pp⟩
  dsimp only at h1 h2 h3 h4
  subst h1 h2 h3 h4
  cases o <;> cases ns <;>
    simp [agrees, naiveStep, step, Op.toEvent,
      NaiveVendingMachine.resetMachine, VendingMachine.resetMachine] <;>
    (try split) <;> simp_all

/-- Whole operation sequences preserve the correspondence. -/
theorem naiveRun_agrees :
    ∀ (ops : List Op) (n : NaiveVendingMachine) (p : VendingMachine),
      agrees n p → agrees (naiveRun n ops) (run p (ops.map Op.toEvent))
  | [], _, _, h => h
  | o :: os, n, p, h =>
      naiveRun_agrees os _ _ (naiveStep_agrees n p o h)

/-- C9 counterexample: the two implementations do not end with equal
transaction values.  After a single selectItem("A1") from fresh
instances, both are in ItemSelected, but the naive machine's inserted
amount holds the number 0.0 (its field initialiser) while the
State-pattern machine's inserted amount is still `undefined` — the two
runtime values are different. -/
theorem naive_pattern_values_differ_counterexample :
    (naiveStep NaiveVendingMachine.init (.selectItem "A1")).1.currentState
      = (step VendingMachine.init (.selectItem "A1")).1.currentState ∧
    some (naiveStep NaiveVendingMachine.init (.selectItem "A1")).1.insertedAmount
      ≠ (step VendingMachine.init (.selectItem "A1")).1.insertedAmount := by
  decide

/-- C9 (amended): for every sequence of shared operations applied to
freshly constructed instances, the naive switch-based machine and the
State-pattern machine traverse the same state tags and agree on the
selected item, the inserted amount, and the pending-completion count —
up to the State-pattern machine's fields being `undefined` until first
assigned, read back with defaults `""` and `0` (the naive machine's
field initialisers). -/
theorem naive_and_statePattern_equivalent (ops : List Op) :
    (naiveRun NaiveVendingMachine.init ops).currentState
      = (run VendingMachine.init (ops.map Op.toEvent)).currentState ∧
    (naiveRun NaiveVendingMachine.init ops).selectedItem
      = ((run VendingMachine.init (ops.map Op.toEvent)).selectedItem).getD "" ∧
    (naiveRun NaiveVendingMachine.init ops).insertedAmount
      = ((run VendingMachine.init (ops.map Op.toEvent)).insertedAmount).getD 0 ∧
    (naiveRun NaiveVendingMachine.init ops).pending
      = (run VendingMachine.init (ops.map Op.toEvent)).pending :=
  naiveRun_agrees ops NaiveVendingMachine.init VendingMachine.init
    ⟨rfl, rfl, rfl, rfl⟩

end StatePattern
